import Mathlib

/-!
Verification of the analytics aggregation engine of the Full-Stack-Data-Analytics
repository (course-mentorship platform).  The Python analytics scripts
(`course_completion_analysis.py`, `student_performance_analysis.py`,
`mentor_effectiveness_analysis.py`, `dashboard.py`) and the `Course` model are
shallowly embedded below: dataframes become lists of records, SQL/pandas
aggregations become list functions over ℚ/ℤ/ℕ, float `NaN`/`inf` values become an
explicit `PValue` type, and Python/numpy `round` (banker's rounding) becomes
`roundHalfEven` on ℚ.
-/

namespace Damp

/-! ## Rounding (Python `round`, numpy/pandas `.round`) -/

/-- Round a rational to the nearest integer, ties going to the even integer.
This is the rounding used by Python's builtin `round` and by numpy/pandas
`.round`, idealized over ℚ. -/
def roundHalfEven (q : ℚ) : ℤ :=
  if q - ⌊q⌋ < 1/2 then ⌊q⌋
  else if 1/2 < q - ⌊q⌋ then ⌊q⌋ + 1
  else if Even ⌊q⌋ then ⌊q⌋ else ⌊q⌋ + 1

/-- Round to 2 decimal places (`round(x, 2)` / `.round(2)`). -/
def roundTo2 (q : ℚ) : ℚ := (roundHalfEven (q * 100) : ℚ) / 100

/-- Round to 1 decimal place (`.round(1)`). -/
def roundTo1 (q : ℚ) : ℚ := (roundHalfEven (q * 10) : ℚ) / 10

/-! ## Generic pandas/numpy helpers -/

/-- Mean of a pandas numeric column: `NaN` (modelled as `none`) on an empty
column, otherwise the arithmetic mean. -/
def pd_mean (l : List ℚ) : Option ℚ :=
  if l = [] then none else some (l.sum / l.length)

/-- Pandas median: midpoint rule on the sorted list, `none` when empty. -/
def median_of (l : List ℚ) : Option ℚ :=
  let s := List.insertionSort (· ≤ ·) l
  if s = [] then none
  else if s.length % 2 = 1 then some (s.getD (s.length / 2) 0)
  else some ((s.getD (s.length / 2 - 1) 0 + s.getD (s.length / 2) 0) / 2)

/-- Running sum (pandas `cumsum`) with accumulator `acc`. -/
def cumulative : ℕ → List ℕ → List ℕ
  | _, [] => []
  | acc, c :: rest => (acc + c) :: cumulative (acc + c) rest

/-- Lexicographic order on (year, month) keys, as used by the SQL
`ORDER BY year, month` in `get_user_growth_data`. -/
def keyLe (a b : ℕ × ℕ) : Prop :=
  a.1 < b.1 ∨ (a.1 = b.1 ∧ a.2 ≤ b.2)

instance : DecidableRel keyLe := fun a b => by
  unfold keyLe; infer_instance

instance : IsTotal (ℕ × ℕ) keyLe := ⟨by intro a b; unfold keyLe; omega⟩

instance : IsTrans (ℕ × ℕ) keyLe := ⟨by intro a b c; unfold keyLe; omega⟩

/-- SQL `GROUP BY year, month` with `COUNT`, ordered by (year, month): one
`(key, count)` pair per distinct key occurring in the input. -/
def monthly_counts (l : List (ℕ × ℕ)) : List ((ℕ × ℕ) × ℕ) :=
  (List.insertionSort keyLe l.dedup).map (fun k => (k, l.count k))

/-- Pandas/numpy float values as they appear in derived ratio columns:
a finite number, positive or negative infinity, or `NaN`. -/
inductive PValue where
  | num (q : ℚ)
  | pinf
  | ninf
  | nan
deriving DecidableEq

/-- Pandas columnwise division: finite division when the denominator is
nonzero, and the IEEE conventions `0/0 = NaN`, `±x/0 = ±inf` otherwise. -/
def pdiv : PValue → PValue → PValue
  | .num a, .num b =>
      if b = 0 then (if a = 0 then .nan else if 0 < a then .pinf else .ninf)
      else .num (a / b)
  | _, _ => .nan

/-- `.round(2)` on a pandas column containing special values: `NaN` and
infinities are preserved. -/
def pround2 : PValue → PValue
  | .num q => .num (roundTo2 q)
  | v => v

/-- `.round(1)` on a pandas column containing special values. -/
def pround1 : PValue → PValue
  | .num q => .num (roundTo1 q)
  | v => v

/-- numpy `np.mean` over a list: `NaN` on the empty list. -/
def np_mean (l : List ℚ) : PValue :=
  if l = [] then .nan else .num (l.sum / l.length)

/-! ## The `Course` ORM model (backend/app/models/course.py) -/

/-- One enrollment row as seen through `Course.enrollments`. -/
structure Enrollment where
  student_id : ℕ
  is_completed : Bool
  completion_percentage : ℚ
deriving DecidableEq

/-- The fields of the `Course` model used by the analytics code: its
enrollments and the ratings of its reviews. -/
structure Course where
  enrollments : List Enrollment
  reviews : List ℚ
deriving DecidableEq

/-- `Course.get_completion_rate`: `0.0` when there are no enrollments,
otherwise `round(completed/total * 100, 2)`. -/
def Course.get_completion_rate (c : Course) : ℚ :=
  let total_enrollments := c.enrollments.length
  if total_enrollments = 0 then 0
  else
    let completed_enrollments := (c.enrollments.filter (·.is_completed)).length
    roundTo2 ((completed_enrollments : ℚ) / total_enrollments * 100)

/-- `Course.get_average_rating`: `0.0` when there are no reviews, otherwise
`round(total_rating / len(reviews), 2)`. -/
def Course.get_average_rating (c : Course) : ℚ :=
  if c.reviews = [] then 0
  else roundTo2 (c.reviews.sum / c.reviews.length)

/-! ## Completion analysis (backend/analytics/course_completion_analysis.py) -/

/-- One row of the completion-analysis snapshot (one enrollment joined with
its course).  Timestamps are in seconds. -/
structure EnrollRow where
  course_id : ℕ
  category : String
  difficulty_level : String
  student_id : ℕ
  enrollment_date : ℤ
  completion_percentage : ℚ
  is_completed : Bool
  completion_date : ℤ
deriving DecidableEq

/-- The overall completion rate computed by `analyze_completion_rates`
(lines 54-56): `completed/total*100` when `total > 0`, else `0`. -/
def analyze_completion_rates (df : List EnrollRow) : ℚ :=
  let total_enrollments := df.length
  let completed_enrollments := (df.filter (·.is_completed)).length
  if 0 < total_enrollments then (completed_enrollments : ℚ) / total_enrollments * 100
  else 0

/-- `completion_time_days` (line 95-98): whole days between completion and
enrollment; pandas `Timedelta.days` floors, hence `Int.fdiv`. -/
def completion_time_days (r : EnrollRow) : ℤ :=
  (r.completion_date - r.enrollment_date).fdiv 86400

/-- The rows over which `analyze_time_to_completion` computes its statistics:
completed enrollments whose day duration survives the outlier filter
`0 ≤ d ≤ 365` (lines 88, 100-104). -/
def ttc_rows (df : List EnrollRow) : List EnrollRow :=
  (df.filter (·.is_completed)).filter
    (fun r => 0 ≤ completion_time_days r ∧ completion_time_days r ≤ 365)

/-- The `completion_time_days` column after outlier removal. -/
def ttc_durations (df : List EnrollRow) : List ℤ :=
  (ttc_rows df).map completion_time_days

/-- The statistics printed/returned by `analyze_time_to_completion`. -/
structure TTCStats where
  mean : Option ℚ
  median : Option ℚ
  fastest : Option ℤ
  slowest : Option ℤ
  by_category : List (String × Option ℚ × Option ℚ × ℕ)
deriving DecidableEq

/-- Per-category mean/median/count over the outlier-filtered rows
(lines 113-115), `.round(1)` applied to mean and median. -/
def ttc_by_category (df : List EnrollRow) : List (String × Option ℚ × Option ℚ × ℕ) :=
  (List.insertionSort (· ≤ ·) ((ttc_rows df).map (·.category)).dedup).map
    (fun cat =>
      let ds := ((ttc_rows df).filter (fun r => r.category = cat)).map
        (fun r => (completion_time_days r : ℚ))
      (cat, Option.map roundTo1 (pd_mean ds), Option.map roundTo1 (median_of ds), ds.length))

/-- `analyze_time_to_completion` (lines 83-118): early `None` when there is no
completed enrollment, otherwise the duration statistics over the
outlier-filtered rows. -/
def analyze_time_to_completion (df : List EnrollRow) : Option TTCStats :=
  if (df.filter (·.is_completed)) = [] then none
  else some
    { mean := pd_mean ((ttc_durations df).map (fun d => (d : ℚ)))
      median := median_of ((ttc_durations df).map (fun d => (d : ℚ)))
      fastest := (ttc_durations df).min?
      slowest := (ttc_durations df).max?
      by_category := ttc_by_category df }

/-- A completion-analysis dataframe: the snapshot rows plus the names of any
columns added to the frame after it was loaded. -/
structure CompletionDataFrame where
  rows : List EnrollRow
  extra_columns : List String
deriving DecidableEq

/-- State-passing version of `analyze_time_to_completion`: the source builds a
`.copy()` of the filtered frame and mutates only the copy, so the input frame
comes back unchanged. -/
def analyze_time_to_completion_df (df : CompletionDataFrame) :
    Option TTCStats × CompletionDataFrame :=
  (analyze_time_to_completion df.rows, df)

/-- The full computation pass of the completion script over the shared
snapshot frame (`analyze_completion_rates` reads it, then
`analyze_time_to_completion` runs on a copy). -/
def completion_analysis_pass (df : CompletionDataFrame) : CompletionDataFrame :=
  (analyze_time_to_completion_df df).2

/-- Observable outcome of one script run: whether the "no data" diagnostic was
printed, which artifact files were written, and the process exit status. -/
structure RunOutcome where
  printed_diagnostic : Bool
  artifacts : List String
  exit_code : ℕ
deriving DecidableEq

/-- `main` of course_completion_analysis.py (lines 181-205): on an empty
snapshot it prints a diagnostic and returns early (the process still exits
with status 0); otherwise it writes the chart and the JSON report. -/
def completion_main (df : List EnrollRow) : RunOutcome :=
  if df.isEmpty then { printed_diagnostic := true, artifacts := [], exit_code := 0 }
  else
    { printed_diagnostic := false
      artifacts := ["course_completion_analysis.png", "completion_report.json"]
      exit_code := 0 }

/-! ## Student performance analysis (backend/analytics/student_performance_analysis.py) -/

/-- A calendar date (`created_at` / `enrollment_date` values); only the
year/month extraction and the date order are used by the analytics. -/
structure RegDate where
  year : ℕ
  month : ℕ
  day : ℕ
deriving DecidableEq

/-- Date comparison `cutoff <= d` (lexicographic on year, month, day). -/
def dateLe (a b : RegDate) : Bool :=
  decide (a.year < b.year ∨ (a.year = b.year ∧
    (a.month < b.month ∨ (a.month = b.month ∧ a.day ≤ b.day))))

/-- SQL `extract(year ...), extract(month ...)` / pandas `.dt.to_period('M')`. -/
def monthKey (d : RegDate) : ℕ × ℕ := (d.year, d.month)

/-- One row of the student-performance snapshot: an enrollment joined with an
assignment submission (assignment fields nullable from the LEFT JOIN). -/
structure PerfRow where
  student_id : ℕ
  course_id : ℕ
  category : String
  difficulty_level : String
  enrollment_date : RegDate
  completion_percentage : ℚ
  is_completed : Bool
  assignment_id : Option ℕ
  max_points : Option ℚ
  grade : Option ℚ
  is_late : Bool
  mentor_id : ℕ
deriving DecidableEq

/-- `df.dropna(subset=['grade'])`: the graded submissions. -/
def graded_submissions (df : List PerfRow) : List PerfRow :=
  df.filter (fun r => r.grade.isSome)

/-- Counts of the five letter-grade buckets of a grade histogram. -/
structure GradeDistribution where
  f_count : ℕ
  d_count : ℕ
  c_count : ℕ
  b_count : ℕ
  a_count : ℕ
deriving DecidableEq

/-- Sum of the five bucket counts. -/
def GradeDistribution.total (g : GradeDistribution) : ℕ :=
  g.f_count + g.d_count + g.c_count + g.b_count + g.a_count

/-- The histogram built by `calculate_performance_metrics` (lines 77-83) with
`pd.cut(grades, bins=[0, 60, 70, 80, 90, 100], labels=['F (0-59)', ...])`.
`pd.cut` uses right-closed intervals `(lo, hi]`, so the bucket labelled
`F (0-59)` receives `(0, 60]`, the one labelled `D (60-69)` receives
`(60, 70]`, and so on; a grade of exactly `0` falls in no bucket and is
dropped by `value_counts()`. -/
def grade_cut_distribution (grades : List ℚ) : GradeDistribution where
  f_count := grades.countP (fun g => decide (0 < g ∧ g ≤ 60))
  d_count := grades.countP (fun g => decide (60 < g ∧ g ≤ 70))
  c_count := grades.countP (fun g => decide (70 < g ∧ g ≤ 80))
  b_count := grades.countP (fun g => decide (80 < g ∧ g ≤ 90))
  a_count := grades.countP (fun g => decide (90 < g ∧ g ≤ 100))

/-- The sum of the per-bucket percentages printed by
`calculate_performance_metrics` (line 82: `count / len(graded) * 100`). -/
def grade_cut_percentage_sum (grades : List ℚ) : ℚ :=
  ((grade_cut_distribution grades).total : ℚ) / grades.length * 100

/-- The `grade_distribution` of `generate_performance_report` (lines 224-230),
built from five explicit boundary filters:
`A: g ≥ 90`, `B: 80 ≤ g < 90`, `C: 70 ≤ g < 80`, `D: 60 ≤ g < 70`, `F: g < 60`. -/
def report_grade_distribution (grades : List ℚ) : GradeDistribution where
  f_count := (grades.filter (fun g => g < 60)).length
  d_count := (grades.filter (fun g => 60 ≤ g ∧ g < 70)).length
  c_count := (grades.filter (fun g => 70 ≤ g ∧ g < 80)).length
  b_count := (grades.filter (fun g => 80 ≤ g ∧ g < 90)).length
  a_count := (grades.filter (fun g => 90 ≤ g)).length

/-- The histogram of `calculate_performance_metrics` at dataframe level. -/
def calculate_performance_metrics_distribution (df : List PerfRow) : GradeDistribution :=
  grade_cut_distribution ((graded_submissions df).filterMap (·.grade))

/-- The `grade_distribution` entry of `generate_performance_report` at
dataframe level. -/
def generate_performance_report_distribution (df : List PerfRow) : GradeDistribution :=
  report_grade_distribution ((graded_submissions df).filterMap (·.grade))

/-- One row of the monthly trend table of `analyze_performance_trends`. -/
structure MonthlyPerf where
  month : ℕ × ℕ
  avg_grade : Option ℚ
  submissions : ℕ
  late_rate : Option ℚ
  completion_rate : Option ℚ
deriving DecidableEq

/-- A performance dataframe: the snapshot rows plus the names of any columns
added to the frame after it was loaded. -/
structure PerfDataFrame where
  rows : List PerfRow
  extra_columns : List String
deriving DecidableEq

/-- Monthly aggregates of `analyze_performance_trends` (lines 156-164) over
the graded rows, keyed by enrollment month. -/
def monthly_performance (rows : List PerfRow) : List MonthlyPerf :=
  let graded := graded_submissions rows
  let keys := List.insertionSort keyLe ((graded.map (fun r => monthKey r.enrollment_date)).dedup)
  keys.map (fun k =>
    let g := graded.filter (fun r => monthKey r.enrollment_date = k)
    { month := k
      avg_grade := Option.map roundTo2 (pd_mean (g.filterMap (·.grade)))
      submissions := g.length
      late_rate := Option.map (fun q => roundTo2 (q * 100))
        (pd_mean (g.map (fun r => if r.is_late then (1 : ℚ) else 0)))
      completion_rate := Option.map (fun q => roundTo2 (q * 100))
        (pd_mean (g.map (fun r => if r.is_completed then (1 : ℚ) else 0))) })

/-- `analyze_performance_trends` (lines 149-169).  Line 154 assigns the
derived column `df['enrollment_month']` directly on the input frame, so the
returned frame carries one extra column. -/
def analyze_performance_trends (df : PerfDataFrame) : List MonthlyPerf × PerfDataFrame :=
  let df2 : PerfDataFrame :=
    { rows := df.rows, extra_columns := df.extra_columns ++ ["enrollment_month"] }
  (monthly_performance df2.rows, df2)

/-- The full computation pass of the performance script over the shared
snapshot frame (the other analyses filter/group without assigning to the
input frame; only `analyze_performance_trends` writes to it). -/
def performance_analysis_pass (df : PerfDataFrame) : PerfDataFrame :=
  (analyze_performance_trends df).2

/-- `main` of student_performance_analysis.py (lines 249-278): early return
(with a printed diagnostic and process exit status 0) when the snapshot is
empty or when it contains no graded submission; otherwise the two artifacts
are written. -/
def performance_main (df : List PerfRow) : RunOutcome :=
  if df.isEmpty then { printed_diagnostic := true, artifacts := [], exit_code := 0 }
  else if (graded_submissions df).isEmpty then
    { printed_diagnostic := true, artifacts := [], exit_code := 0 }
  else
    { printed_diagnostic := false
      artifacts := ["student_performance_analysis.png", "student_performance_report.json"]
      exit_code := 0 }

/-! ## Mentor effectiveness analysis (backend/analytics/mentor_effectiveness_analysis.py) -/

/-- One row of the mentor snapshot: one course of a mentor with its SQL
aggregates (lines 23-63).  `completion_rate` is `NULL` when the course has no
enrolled students (`NULLIF`), `avg_course_rating` is `NULL` when it has no
reviews, `avg_assignment_score` is `NULL` when it has no graded submissions. -/
structure MentorCourseRow where
  mentor_id : ℕ
  course_id : ℕ
  category : String
  enrolled_students : ℕ
  completed_students : ℕ
  completion_rate : Option ℚ
  avg_course_rating : Option ℚ
  total_reviews : ℕ
  assignments_created : ℕ
  graded_submissions : ℕ
  avg_assignment_score : Option ℚ
  modules_created : ℕ
deriving DecidableEq

/-- The weighted mentor effectiveness score of `calculate_mentor_metrics`
(lines 88-92): `(completion_rate*0.4 + avg_course_rating*10*0.3 +
avg_assignment_score*0.3).round(2)`. -/
def effectiveness_score (completion_rate avg_course_rating avg_assignment_score : ℚ) : ℚ :=
  roundTo2 (completion_rate * 0.4 + avg_course_rating * 10 * 0.3 + avg_assignment_score * 0.3)

/-- The per-mentor aggregate row produced by `calculate_mentor_metrics`. -/
structure MentorSummary where
  course_count : ℕ
  enrolled_students : ℕ
  completed_students : ℕ
  completion_rate : Option ℚ
  avg_course_rating : Option ℚ
  total_reviews : ℕ
  graded_count : ℕ
  avg_assignment_score : Option ℚ
  mentor_effectiveness : Option ℚ
deriving DecidableEq

/-- The per-mentor aggregation of `calculate_mentor_metrics` (lines 72-92)
over one mentor's course rows: counts and sums for count/sum columns, pandas
`mean` (which skips `NULL` values and is `NaN`, i.e. `none`, when every value
is `NULL`) for the three rate columns, the whole frame `.round(2)`-ed, and the
weighted effectiveness score (which is `NaN` if any input is `NaN`). -/
def calculate_mentor_metrics (rows : List MentorCourseRow) : MentorSummary :=
  let cr := Option.map roundTo2 (pd_mean (rows.filterMap (·.completion_rate)))
  let ar := Option.map roundTo2 (pd_mean (rows.filterMap (·.avg_course_rating)))
  let sc := Option.map roundTo2 (pd_mean (rows.filterMap (·.avg_assignment_score)))
  { course_count := rows.length
    enrolled_students := (rows.map (·.enrolled_students)).sum
    completed_students := (rows.map (·.completed_students)).sum
    completion_rate := cr
    avg_course_rating := ar
    total_reviews := (rows.map (·.total_reviews)).sum
    graded_count := (rows.map (·.graded_submissions)).sum
    avg_assignment_score := sc
    mentor_effectiveness :=
      match cr, ar, sc with
      | some a, some b, some c => some (effectiveness_score a b c)
      | _, _, _ => none }

/-- Follows the claim's words (C10): the unweighted arithmetic mean, each
course counting equally. -/
def unweighted_mean (l : List ℚ) : ℚ := l.sum / l.length

/-- Follows the claim's contrasted alternative (C10): completion rate as the
quotient of the mentor-level totals. -/
def totals_completion_rate (rows : List MentorCourseRow) : ℚ :=
  ((rows.map (·.completed_students)).sum : ℚ) / ((rows.map (·.enrolled_students)).sum) * 100

/-- The per-mentor workload row of `analyze_mentor_workload_efficiency`
(lines 172-183). -/
structure WorkloadRow where
  course_count : ℕ
  enrolled_students : ℕ
  graded_count : ℕ
  modules_created : ℕ
  avg_students_per_course : PValue
  grading_load : PValue
  content_density : PValue
deriving DecidableEq

/-- The workload/efficiency metrics of `analyze_mentor_workload_efficiency`
for one mentor's group of course rows.  The three derived quotients are plain
pandas divisions with no zero-denominator guard. -/
def mentor_workload_row (rows : List MentorCourseRow) : WorkloadRow :=
  let cc := rows.length
  let es := (rows.map (·.enrolled_students)).sum
  let gs := (rows.map (·.graded_submissions)).sum
  let mc := (rows.map (·.modules_created)).sum
  { course_count := cc
    enrolled_students := es
    graded_count := gs
    modules_created := mc
    avg_students_per_course := pround1 (pdiv (.num es) (.num cc))
    grading_load := pround2 (pdiv (.num gs) (.num es))
    content_density := pround1 (pdiv (.num mc) (.num cc)) }

/-! ## Streamlit dashboard (backend/analytics/dashboard.py) -/

/-- `get_mentor_effectiveness` (lines 173-176): total enrollments over a
mentor's active courses. -/
def mentor_total_enrollments (courses : List Course) : ℕ :=
  (courses.map (fun c => c.enrollments.length)).sum

/-- Total completed enrollments over a mentor's courses (line 174). -/
def mentor_total_completed (courses : List Course) : ℕ :=
  (courses.map (fun c => (c.enrollments.filter (·.is_completed)).length)).sum

/-- `completion_rate` of `get_mentor_effectiveness` (line 176): guarded, `0`
when the mentor has no enrollments. -/
def mentor_completion_rate (courses : List Course) : ℚ :=
  if 0 < mentor_total_enrollments courses then
    (mentor_total_completed courses : ℚ) / mentor_total_enrollments courses * 100
  else 0

/-- `avg_rating` of `get_mentor_effectiveness` (line 177):
`np.mean([r for c in courses if c.get_average_rating() > 0]) if courses else 0`.
`np.mean` of an empty list is `NaN`. -/
def mentor_avg_course_rating (courses : List Course) : PValue :=
  if courses = [] then .num 0
  else np_mean ((courses.filter (fun c => 0 < c.get_average_rating)).map
    (·.get_average_rating))

/-- The workload-aware effectiveness score of the dashboard (lines 431-435):
`(completion_rate*0.5 + avg_course_rating*20*0.3 +
(courses_count/max_courses_count)*100*0.2).round(2)`. -/
def dashboard_effectiveness_score
    (completion_rate avg_course_rating courses_count max_courses_count : ℚ) : ℚ :=
  roundTo2 (completion_rate * 0.5 + avg_course_rating * 20 * 0.3 +
    courses_count / max_courses_count * 100 * 0.2)

/-- `get_user_growth_data` (lines 80-109): filter registrations to the
trailing 12-month window, then the SQL monthly group-count ordered by
(year, month). -/
def get_user_growth_data (users : List RegDate) (cutoff : RegDate) : List ((ℕ × ℕ) × ℕ) :=
  monthly_counts ((users.filter (fun u => dateLe cutoff u)).map monthKey)

/-- The cumulative registration series of the Trends page (lines 482-484):
`cumsum` over the date-ordered monthly counts. -/
def user_growth_cumulative (users : List RegDate) (cutoff : RegDate) : List ℕ :=
  cumulative 0 ((get_user_growth_data users cutoff).map Prod.snd)

/-! ## Concrete snapshots used by the individual claims -/

/-- Concrete course for claim C1: three enrollments, one completed. -/
def c1_course : Course :=
  { enrollments := [⟨1, true, 100⟩, ⟨2, false, 10⟩, ⟨3, false, 20⟩], reviews := [] }

/-- Scenario row for C4: enrolled 2024-01-01, completed 2024-01-31
(epoch seconds), a 30-day duration. -/
def c4_row30 : EnrollRow :=
  { course_id := 1, category := "a", difficulty_level := "b", student_id := 1,
    enrollment_date := 1704067200, completion_percentage := 100,
    is_completed := true, completion_date := 1706659200 }

/-- Scenario row for C4: enrolled 2024-01-01, completed 2023-12-01, a negative
duration. -/
def c4_rowneg : EnrollRow :=
  { course_id := 2, category := "a", difficulty_level := "b", student_id := 2,
    enrollment_date := 1704067200, completion_percentage := 100,
    is_completed := true, completion_date := 1701388800 }

/-- Snapshot for C4's concrete scenario. -/
def c4_df : List EnrollRow := [c4_row30, c4_rowneg]

/-- Mentor course row for C7: no enrolled students but three graded
submissions. -/
def c7_row : MentorCourseRow :=
  { mentor_id := 1, course_id := 1, category := "a", enrolled_students := 0,
    completed_students := 0, completion_rate := none, avg_course_rating := none,
    total_reviews := 0, assignments_created := 1, graded_submissions := 3,
    avg_assignment_score := some 80, modules_created := 2 }

/-- Course with one enrollment and no reviews, for C7's rating case. -/
def c7_course : Course := { enrollments := [⟨1, false, 0⟩], reviews := [] }

/-- Course row of one mentor for C10: a 1-student course fully completed. -/
def c10_row_a : MentorCourseRow :=
  { mentor_id := 1, course_id := 1, category := "a", enrolled_students := 1,
    completed_students := 1, completion_rate := some 100, avg_course_rating := some 5,
    total_reviews := 1, assignments_created := 0, graded_submissions := 0,
    avg_assignment_score := none, modules_created := 0 }

/-- Course row of one mentor for C10: a 3-student course with no completions. -/
def c10_row_b : MentorCourseRow :=
  { mentor_id := 1, course_id := 2, category := "a", enrolled_students := 3,
    completed_students := 0, completion_rate := some 0, avg_course_rating := some 4,
    total_reviews := 2, assignments_created := 0, graded_submissions := 0,
    avg_assignment_score := none, modules_created := 0 }

/-- The mentor group for C10. -/
def c10_rows : List MentorCourseRow := [c10_row_a, c10_row_b]

/-! ## Helper lemmas about the rounding model -/

theorem roundHalfEven_bounds (q : ℚ) :
    ⌊q⌋ ≤ roundHalfEven q ∧ roundHalfEven q ≤ ⌊q⌋ + 1 := by
  unfold roundHalfEven
  split_ifs <;> omega

theorem roundHalfEven_eq_floor {q : ℚ} (n : ℤ) (h1 : (n : ℚ) ≤ q)
    (h2 : q < n + 1/2) : roundHalfEven q = n := by
  have hfl : ⌊q⌋ = n := by
    rw [Int.floor_eq_iff]
    exact ⟨h1, by linarith⟩
  unfold roundHalfEven
  rw [hfl, if_pos (by linarith)]

theorem roundHalfEven_eq_ceil {q : ℚ} (n : ℤ) (h1 : (n : ℚ) + 1/2 < q)
    (h2 : q < n + 1) : roundHalfEven q = n + 1 := by
  have hfl : ⌊q⌋ = n := by
    rw [Int.floor_eq_iff]
    exact ⟨by linarith, by linarith⟩
  unfold roundHalfEven
  rw [hfl, if_neg (by linarith), if_pos (by linarith)]

theorem roundHalfEven_intCast (n : ℤ) : roundHalfEven (n : ℚ) = n :=
  roundHalfEven_eq_floor n le_rfl (by linarith)

theorem roundHalfEven_mono {x y : ℚ} (h : x ≤ y) :
    roundHalfEven x ≤ roundHalfEven y := by
  have hf : ⌊x⌋ ≤ ⌊y⌋ := Int.floor_le_floor h
  rcases eq_or_lt_of_le hf with heq | hlt
  · have hfr : x - (⌊x⌋ : ℚ) ≤ y - (⌊x⌋ : ℚ) := by linarith
    unfold roundHalfEven
    rw [← heq]
    split_ifs <;> first | omega | (exfalso; linarith)
  · obtain ⟨hbx1, hbx2⟩ := roundHalfEven_bounds x
    obtain ⟨hby1, hby2⟩ := roundHalfEven_bounds y
    omega

theorem roundTo2_mono {x y : ℚ} (h : x ≤ y) : roundTo2 x ≤ roundTo2 y := by
  unfold roundTo2
  have h1 : roundHalfEven (x * 100) ≤ roundHalfEven (y * 100) :=
    roundHalfEven_mono (by linarith)
  have h2 : ((roundHalfEven (x * 100) : ℚ)) ≤ (roundHalfEven (y * 100) : ℚ) := by
    exact_mod_cast h1
  linarith

theorem roundTo2_int_mul {q : ℚ} (n : ℤ) (h : q * 100 = (n : ℚ)) :
    roundTo2 q = (n : ℚ) / 100 := by
  unfold roundTo2
  rw [h, roundHalfEven_intCast]

theorem roundTo2_zero : roundTo2 0 = 0 := by
  rw [roundTo2_int_mul 0 (by norm_num)]
  norm_num

theorem roundTo2_hundred : roundTo2 100 = 100 := by
  rw [roundTo2_int_mul 10000 (by norm_num)]
  norm_num

theorem roundTo2_mem_Icc {q : ℚ} (h0 : 0 ≤ q) (h1 : q ≤ 100) :
    0 ≤ roundTo2 q ∧ roundTo2 q ≤ 100 := by
  constructor
  · have := roundTo2_mono h0
    rwa [roundTo2_zero] at this
  · have := roundTo2_mono h1
    rwa [roundTo2_hundred] at this

/-! ## Claim C1 -/

/-- C1 (counterexample): `Course.get_completion_rate` does not equal
`100 × completed / total` exactly — on a course with 1 of 3 enrollments
completed it returns the 2-decimal rounding `33.33`, not `100/3`. -/
theorem c1_counterexample :
    Course.get_completion_rate c1_course ≠
      100 * ((c1_course.enrollments.filter (·.is_completed)).length : ℚ) /
        (c1_course.enrollments.length : ℚ) := by
  have h1 : (c1_course.enrollments.filter (·.is_completed)).length = 1 := by decide
  have h2 : c1_course.enrollments.length = 3 := by decide
  have hval : Course.get_completion_rate c1_course = 3333 / 100 := by
    have hshape : Course.get_completion_rate c1_course =
        if c1_course.enrollments.length = 0 then 0
        else roundTo2 (((c1_course.enrollments.filter (·.is_completed)).length : ℚ) /
          (c1_course.enrollments.length : ℚ) * 100) := rfl
    rw [hshape, h1, h2]
    norm_num
    have hr : roundHalfEven ((100 : ℚ) / 3 * 100) = 3333 := by
      rw [show (100 : ℚ) / 3 * 100 = 10000 / 3 by norm_num]
      exact roundHalfEven_eq_floor 3333 (by norm_num) (by norm_num)
    unfold roundTo2
    rw [hr]
    norm_num
  rw [hval, h1, h2]
  norm_num

/-- C1 (amended): the overall completion rate of `analyze_completion_rates`
equals `100 × completed/total` exactly (`0` when the total is `0`) and lies in
`[0, 100]`; `Course.get_completion_rate` equals that quantity rounded to two
decimals, is `0` when the course has no enrollments, and also lies in
`[0, 100]`. -/
theorem c1_completion_rate_amended :
    (∀ df : List EnrollRow,
      analyze_completion_rates df =
        (if df.length = 0 then 0
         else 100 * ((df.filter (·.is_completed)).length : ℚ) / df.length)
      ∧ 0 ≤ analyze_completion_rates df ∧ analyze_completion_rates df ≤ 100)
  ∧ (∀ c : Course,
      Course.get_completion_rate c =
        (if c.enrollments.length = 0 then 0
         else roundTo2 (100 * ((c.enrollments.filter (·.is_completed)).length : ℚ) /
            c.enrollments.length))
      ∧ 0 ≤ Course.get_completion_rate c ∧ Course.get_completion_rate c ≤ 100) := by
  have hfrac : ∀ (cnt n : ℕ), cnt ≤ n → 0 < n →
      0 ≤ (cnt : ℚ) / n * 100 ∧ (cnt : ℚ) / n * 100 ≤ 100 := by
    intro cnt n hle hpos
    have hn : (0 : ℚ) < n := by exact_mod_cast hpos
    have hcle : (cnt : ℚ) ≤ n := by exact_mod_cast hle
    constructor
    · positivity
    · have : (cnt : ℚ) / n ≤ 1 := (div_le_one hn).mpr hcle
      linarith
  constructor
  · intro df
    have hle := List.length_filter_le (fun r : EnrollRow => r.is_completed) df
    by_cases hdf : df.length = 0
    · have hz : analyze_completion_rates df = 0 := by
        simp [analyze_completion_rates, hdf]
      rw [hz, if_pos hdf]
      norm_num
    · have hpos : 0 < df.length := Nat.pos_of_ne_zero hdf
      have hv : analyze_completion_rates df =
          ((df.filter (·.is_completed)).length : ℚ) / df.length * 100 := by
        simp [analyze_completion_rates, hpos]
      obtain ⟨hb0, hb1⟩ := hfrac _ _ hle hpos
      refine ⟨?_, by rw [hv]; exact hb0, by rw [hv]; exact hb1⟩
      rw [hv, if_neg hdf]
      ring
  · intro c
    have hle := List.length_filter_le (fun e : Enrollment => e.is_completed) c.enrollments
    have hshape : Course.get_completion_rate c =
        if c.enrollments.length = 0 then 0
        else roundTo2 (((c.enrollments.filter (·.is_completed)).length : ℚ) /
          (c.enrollments.length : ℚ) * 100) := rfl
    by_cases hdf : c.enrollments.length = 0
    · rw [hshape, if_pos hdf]
      rw [if_pos hdf]
      norm_num
    · have hpos : 0 < c.enrollments.length := Nat.pos_of_ne_zero hdf
      obtain ⟨hb0, hb1⟩ := hfrac _ _ hle hpos
      obtain ⟨hr0, hr1⟩ := roundTo2_mem_Icc hb0 hb1
      rw [hshape, if_neg hdf, if_neg hdf]
      refine ⟨?_, hr0, hr1⟩
      congr 1
      ring

/-! ## Claim C2 -/

/-- Helper for C2: the five explicit boundary filters of
`generate_performance_report` partition the grades, so the bucket counts sum
to the number of graded submissions. -/
theorem report_grade_distribution_total (grades : List ℚ) :
    (report_grade_distribution grades).total = grades.length := by
  induction grades with
  | nil => rfl
  | cons g gs ih =>
    simp only [report_grade_distribution, GradeDistribution.total] at ih ⊢
    simp only [List.filter_cons, List.length_cons]
    rcases lt_or_le g 60 with h1 | h1
    · have k1 : ¬(60 ≤ g ∧ g < 70) := by rintro ⟨h, _⟩; linarith
      have k2 : ¬(70 ≤ g ∧ g < 80) := by rintro ⟨h, _⟩; linarith
      have k3 : ¬(80 ≤ g ∧ g < 90) := by rintro ⟨h, _⟩; linarith
      have k4 : ¬(90 ≤ g) := by intro h; linarith
      simp [h1, k1, k2, k3, k4] at ih ⊢
      omega
    · rcases lt_or_le g 70 with h2 | h2
      · have k0 : ¬(g < 60) := not_lt.mpr h1
        have k2 : ¬(70 ≤ g ∧ g < 80) := by rintro ⟨h, _⟩; linarith
        have k3 : ¬(80 ≤ g ∧ g < 90) := by rintro ⟨h, _⟩; linarith
        have k4 : ¬(90 ≤ g) := by intro h; linarith
        simp [k0, h1, h2, k2, k3, k4] at ih ⊢
        omega
      · rcases lt_or_le g 80 with h3 | h3
        · have k0 : ¬(g < 60) := by intro h; linarith
          have k1 : ¬(60 ≤ g ∧ g < 70) := by rintro ⟨_, h⟩; linarith
          have k3 : ¬(80 ≤ g ∧ g < 90) := by rintro ⟨h, _⟩; linarith
          have k4 : ¬(90 ≤ g) := by intro h; linarith
          simp [k0, k1, h2, h3, k3, k4] at ih ⊢
          omega
        · rcases lt_or_le g 90 with h4 | h4
          · have k0 : ¬(g < 60) := by intro h; linarith
            have k1 : ¬(60 ≤ g ∧ g < 70) := by rintro ⟨_, h⟩; linarith
            have k2 : ¬(70 ≤ g ∧ g < 80) := by rintro ⟨_, h⟩; linarith
            have k4 : ¬(90 ≤ g) := by intro h; linarith
            simp [k0, k1, k2, h3, h4, k4] at ih ⊢
            omega
          · have k0 : ¬(g < 60) := by intro h; linarith
            have k1 : ¬(60 ≤ g ∧ g < 70) := by rintro ⟨_, h⟩; linarith
            have k2 : ¬(70 ≤ g ∧ g < 80) := by rintro ⟨_, h⟩; linarith
            have k3 : ¬(80 ≤ g ∧ g < 90) := by rintro ⟨_, h⟩; linarith
            simp [k0, k1, k2, k3, h4] at ih ⊢
            omega

/-- C2 (code bug evidence): the `pd.cut` histogram of
`calculate_performance_metrics` uses right-closed bins, so a grade of exactly
60 is counted in the bucket labelled `F (0-59)` (not `D`), a grade of exactly
0 is assigned to no bucket (counts sum to 0, not 1), and on the graded set
`[0, 50]` the printed bucket percentages sum to 50, not 100.  The explicit
boundary filters of `generate_performance_report` in the same file realize
the labelled/claimed boundaries: their five counts always sum to the number
of graded submissions. -/
theorem c2_grade_histogram_eval :
    (grade_cut_distribution [(60 : ℚ)]).f_count = 1
  ∧ (grade_cut_distribution [(60 : ℚ)]).d_count = 0
  ∧ (grade_cut_distribution [(0 : ℚ)]).total = 0
  ∧ grade_cut_percentage_sum [(0 : ℚ), 50] = 50
  ∧ (∀ grades : List ℚ, (report_grade_distribution grades).total = grades.length) := by
  refine ⟨?_, ?_, ?_, ?_, report_grade_distribution_total⟩
  · norm_num [grade_cut_distribution, List.countP_cons, List.countP_nil]
  · norm_num [grade_cut_distribution, List.countP_cons, List.countP_nil]
  · norm_num [grade_cut_distribution, GradeDistribution.total,
      List.countP_cons, List.countP_nil]
  · norm_num [grade_cut_percentage_sum, grade_cut_distribution,
      GradeDistribution.total, List.countP_cons, List.countP_nil]

/-! ## Claim C3 -/

/-- C3 (confirmed): the mentor effectiveness score of
`calculate_mentor_metrics` equals
`round2(0.4·completion_rate + 0.3·(avg_course_rating·10) + 0.3·avg_assignment_score)`,
and at completion_rate 80, rating 4.0, assignment score 75 it is 66.5. -/
theorem c3_mentor_effectiveness_formula :
    (∀ cr r s : ℚ,
      effectiveness_score cr r s = roundTo2 (0.4 * cr + 0.3 * (r * 10) + 0.3 * s))
  ∧ effectiveness_score 80 4 75 = 66.5 := by
  constructor
  · intro cr r s
    unfold effectiveness_score
    congr 1
    ring
  · unfold effectiveness_score
    rw [roundTo2_int_mul 6650 (by norm_num)]
    norm_num

/-! ## Claim C4 -/

/-- C4 (confirmed): `analyze_time_to_completion` computes its statistics only
over completed rows whose whole-day duration lies in `[0, 365]` (membership
characterization of the filtered rows in both directions); the scenario row
enrolled 2024-01-01 / completed 2024-01-31 has duration 30 days and is kept,
while the negative-duration row is dropped, leaving durations `[30]` and a
mean of 30 days. -/
theorem c4_time_to_completion_filter :
    (∀ df : List EnrollRow, ∀ r ∈ ttc_rows df,
        r ∈ df ∧ r.is_completed = true ∧
        0 ≤ completion_time_days r ∧ completion_time_days r ≤ 365)
  ∧ (∀ df : List EnrollRow, ∀ r ∈ df, r.is_completed = true →
        0 ≤ completion_time_days r → completion_time_days r ≤ 365 → r ∈ ttc_rows df)
  ∧ completion_time_days c4_row30 = 30
  ∧ ttc_durations c4_df = [30]
  ∧ (analyze_time_to_completion c4_df).map (·.mean) = some (some 30) := by
  refine ⟨?_, ?_, by decide, by decide, ?_⟩
  · intro df r hr
    unfold ttc_rows at hr
    have h1 := List.mem_filter.mp hr
    have h2 := List.mem_filter.mp h1.1
    have h3 := of_decide_eq_true h1.2
    exact ⟨h2.1, h2.2, h3.1, h3.2⟩
  · intro df r hmem hc hd1 hd2
    unfold ttc_rows
    refine List.mem_filter.mpr ⟨List.mem_filter.mpr ⟨hmem, hc⟩, ?_⟩
    simpa using ⟨hd1, hd2⟩
  · have hne : ¬(c4_df.filter (·.is_completed) = []) := by decide
    have hd : ttc_durations c4_df = [30] := by decide
    unfold analyze_time_to_completion
    rw [if_neg hne]
    simp only [Option.map_some']
    rw [hd]
    norm_num [pd_mean]

/-- Witness for C4: the 30-day scenario row is in the filtered set, and the
theorem yields its bounds. -/
theorem c4_witness :
    c4_row30 ∈ c4_df ∧ c4_row30.is_completed = true ∧
      0 ≤ completion_time_days c4_row30 ∧ completion_time_days c4_row30 ≤ 365 :=
  c4_time_to_completion_filter.1 c4_df c4_row30 (by decide)

/-! ## Claim C5 -/

theorem cumulative_head_le (l : List ℕ) (acc b : ℕ)
    (h : (cumulative acc l).head? = some b) : acc ≤ b := by
  cases l with
  | nil => simp [cumulative] at h
  | cons c rest =>
    simp [cumulative] at h
    omega

theorem cumulative_chain (l : List ℕ) : ∀ acc, List.Chain' (· ≤ ·) (cumulative acc l) := by
  induction l with
  | nil => intro acc; simp [cumulative]
  | cons c rest ih =>
    intro acc
    rw [cumulative]
    refine List.chain'_cons'.mpr ⟨?_, ih (acc + c)⟩
    intro b hb
    exact cumulative_head_le rest (acc + c) b (by simpa using hb)

theorem cumulative_getLastD (l : List ℕ) : ∀ acc, (cumulative acc l).getLastD acc = acc + l.sum := by
  induction l with
  | nil => intro acc; simp [cumulative]
  | cons c rest ih =>
    intro acc
    rw [cumulative, List.getLastD_cons, ih (acc + c), List.sum_cons]
    omega

theorem count_key_eq (k : ℕ × ℕ) (l : List (ℕ × ℕ)) :
    l.count k = @List.count _ instBEqOfDecidableEq k l := by
  induction l with
  | nil => rfl
  | cons a rest ih =>
    rw [List.count_cons, @List.count_cons _ instBEqOfDecidableEq, ih]
    by_cases h : a = k
    · simp [h, instBEqOfDecidableEq]
    · simp [h, instBEqOfDecidableEq]

theorem monthly_counts_sum (l : List (ℕ × ℕ)) :
    ((monthly_counts l).map Prod.snd).sum = l.length := by
  unfold monthly_counts
  rw [List.map_map]
  have hperm := (List.perm_insertionSort keyLe l.dedup).map (fun k => l.count k)
  calc ((List.insertionSort keyLe l.dedup).map (Prod.snd ∘ fun k => (k, l.count k))).sum
      = ((List.insertionSort keyLe l.dedup).map (fun k => l.count k)).sum := rfl
    _ = (l.dedup.map (fun k => l.count k)).sum := hperm.sum_eq
    _ = (l.dedup.map (fun k => @List.count _ instBEqOfDecidableEq k l)).sum := by
        simp only [count_key_eq]
    _ = l.length := List.sum_map_count_dedup_eq_length l

/-- C5 (confirmed): for registrations all inside the trailing window, the
monthly bucket counts of `get_user_growth_data` sum to the number of
registrations, and the cumulative series of the Trends page is non-decreasing
with final value equal to that same total. -/
theorem c5_trend_bucket_sums (users : List RegDate) (cutoff : RegDate)
    (hwin : ∀ u ∈ users, dateLe cutoff u = true) :
    ((get_user_growth_data users cutoff).map Prod.snd).sum = users.length
    ∧ List.Chain' (· ≤ ·) (user_growth_cumulative users cutoff)
    ∧ (user_growth_cumulative users cutoff).getLastD 0 = users.length := by
  have hfilter : users.filter (fun u => dateLe cutoff u) = users :=
    List.filter_eq_self.mpr hwin
  have hsum : ((get_user_growth_data users cutoff).map Prod.snd).sum = users.length := by
    unfold get_user_growth_data
    rw [hfilter, monthly_counts_sum, List.length_map]
  refine ⟨hsum, cumulative_chain _ 0, ?_⟩
  unfold user_growth_cumulative
  rw [cumulative_getLastD _ 0, Nat.zero_add]
  exact hsum

/-- Witness for C5: two registrations inside the window, bucket counts
summing to 2. -/
theorem c5_witness :
    ((get_user_growth_data [⟨2024, 1, 15⟩, ⟨2024, 3, 2⟩] ⟨2023, 10, 1⟩).map Prod.snd).sum = 2 :=
  (c5_trend_bucket_sums [⟨2024, 1, 15⟩, ⟨2024, 3, 2⟩] ⟨2023, 10, 1⟩ (by decide)).1

/-! ## Claim C6 -/

/-- C6 (confirmed): both composite effectiveness scores — the mentor
`{0.4, 0.3, 0.3}` formula and the dashboard workload-aware `{0.5, 0.3, 0.2}`
formula — are monotonically non-decreasing in each sub-metric when the others
are held fixed (the dashboard courses-count term additionally requires a
positive maximum count, its denominator). -/
theorem c6_effectiveness_monotone :
    (∀ cr cr2 r s : ℚ, cr ≤ cr2 →
      effectiveness_score cr r s ≤ effectiveness_score cr2 r s)
  ∧ (∀ cr r r2 s : ℚ, r ≤ r2 →
      effectiveness_score cr r s ≤ effectiveness_score cr r2 s)
  ∧ (∀ cr r s s2 : ℚ, s ≤ s2 →
      effectiveness_score cr r s ≤ effectiveness_score cr r s2)
  ∧ (∀ cr cr2 r cnt m : ℚ, cr ≤ cr2 →
      dashboard_effectiveness_score cr r cnt m ≤ dashboard_effectiveness_score cr2 r cnt m)
  ∧ (∀ cr r r2 cnt m : ℚ, r ≤ r2 →
      dashboard_effectiveness_score cr r cnt m ≤ dashboard_effectiveness_score cr r2 cnt m)
  ∧ (∀ cr r cnt cnt2 m : ℚ, 0 < m → cnt ≤ cnt2 →
      dashboard_effectiveness_score cr r cnt m ≤ dashboard_effectiveness_score cr r cnt2 m) := by
  refine ⟨?_, ?_, ?_, ?_, ?_, ?_⟩
  · intro cr cr2 r s h
    exact roundTo2_mono (by linarith)
  · intro cr r r2 s h
    exact roundTo2_mono (by linarith)
  · intro cr r s s2 h
    exact roundTo2_mono (by linarith)
  · intro cr cr2 r cnt m h
    exact roundTo2_mono (by linarith)
  · intro cr r r2 cnt m h
    exact roundTo2_mono (by linarith)
  · intro cr r cnt cnt2 m hm h
    apply roundTo2_mono
    have hdiv : cnt / m ≤ cnt2 / m := by gcongr
    linarith

/-- Witness for C6: raising the completion rate from 80 to 90 does not lower
the mentor effectiveness score, and raising the courses count from 1 to 2
(with max 2) does not lower the dashboard score. -/
theorem c6_witness :
    effectiveness_score 80 4 75 ≤ effectiveness_score 90 4 75
    ∧ dashboard_effectiveness_score 80 4 1 2 ≤ dashboard_effectiveness_score 80 4 2 2 :=
  ⟨c6_effectiveness_monotone.1 80 90 4 75 (by norm_num),
   c6_effectiveness_monotone.2.2.2.2.2 80 4 1 2 2 (by norm_num) (by norm_num)⟩

/-! ## Claim C7 -/

/-- C7 (counterexample): zero denominators are not always encoded as 0/None.
A mentor group whose single course row has 0 enrolled students and 3 graded
submissions gets `grading_load = +inf`, and a mentor with one unrated course
gets `avg_course_rating = NaN` (`np.mean` of an empty list) — both non-finite
values. -/
theorem c7_counterexample :
    (mentor_workload_row [c7_row]).grading_load = PValue.pinf
    ∧ mentor_avg_course_rating [c7_course] = PValue.nan := by
  constructor
  · norm_num [mentor_workload_row, c7_row, pdiv, pround2]
  · norm_num [mentor_avg_course_rating, c7_course, Course.get_average_rating,
      np_mean, List.filter]

/-- C7 (amended): the guarded ratios do recover zero denominators — the
dashboard per-mentor completion rate is 0 when the mentor has no enrollments
and the average rating is 0 when the mentor has no courses — but the workload
`grading_load` is an unguarded division (`NaN` for 0/0, `+inf` for positive/0),
and a mentor with courses none of which is rated gets rating `NaN`. -/
theorem c7_zero_denominator_amended :
    (∀ courses : List Course, mentor_total_enrollments courses = 0 →
        mentor_completion_rate courses = 0)
  ∧ mentor_avg_course_rating [] = PValue.num 0
  ∧ (∀ rows : List MentorCourseRow, (rows.map (·.enrolled_students)).sum = 0 →
        (rows.map (·.graded_submissions)).sum = 0 →
        (mentor_workload_row rows).grading_load = PValue.nan)
  ∧ (∀ rows : List MentorCourseRow, (rows.map (·.enrolled_students)).sum = 0 →
        0 < (rows.map (·.graded_submissions)).sum →
        (mentor_workload_row rows).grading_load = PValue.pinf)
  ∧ (∀ courses : List Course, courses ≠ [] →
        courses.filter (fun c => 0 < c.get_average_rating) = [] →
        mentor_avg_course_rating courses = PValue.nan) := by
  refine ⟨?_, ?_, ?_, ?_, ?_⟩
  · intro courses h
    simp [mentor_completion_rate, h]
  · simp [mentor_avg_course_rating]
  · intro rows h1 h2
    simp [mentor_workload_row, h1, h2, pdiv, pround2]
  · intro rows h1 h2
    have hgs : (0 : ℚ) < (((rows.map (·.graded_submissions)).sum : ℕ) : ℚ) := by
      exact_mod_cast h2
    push_cast at hgs
    rw [List.map_map] at hgs
    simp [mentor_workload_row, h1, pdiv, pround2, hgs, hgs.ne']
  · intro courses h1 h2
    simp [mentor_avg_course_rating, h1, h2, np_mean]

/-- Witness for C7: the guarded completion rate at an empty course list, and
the unguarded grading load at the concrete 0-enrollment mentor. -/
theorem c7_witness :
    mentor_completion_rate [] = 0
    ∧ (mentor_workload_row [c7_row]).grading_load = PValue.pinf :=
  ⟨c7_zero_denominator_amended.1 [] (by decide),
   c7_zero_denominator_amended.2.2.2.1 [c7_row] (by decide) (by decide)⟩

/-! ## Claim C8 -/

/-- C8 (counterexample): on an empty snapshot both analysis scripts return
early from `main` with a plain `return`, so the process exit status is 0 —
not the non-zero exit the claim states. -/
theorem c8_counterexample :
    (completion_main []).exit_code = 0 ∧ (performance_main []).exit_code = 0 :=
  ⟨rfl, rfl⟩

/-- C8 (amended): on an empty snapshot each analysis script prints the
diagnostic, writes no report or chart artifact, and returns early — but the
process exit status is 0, not non-zero. -/
theorem c8_empty_snapshot_amended :
    completion_main [] =
      { printed_diagnostic := true, artifacts := [], exit_code := 0 }
    ∧ performance_main [] =
      { printed_diagnostic := true, artifacts := [], exit_code := 0 } :=
  ⟨rfl, rfl⟩

/-! ## Claim C9 -/

/-- C9 (counterexample): a full performance-analysis pass does not leave the
snapshot frame unchanged — `analyze_performance_trends` assigns the derived
`enrollment_month` column on the input frame in place (line 154). -/
theorem c9_counterexample :
    performance_analysis_pass { rows := [], extra_columns := [] } ≠
      { rows := [], extra_columns := [] } := by
  decide

/-- C9 (amended): the completion-analysis pass leaves the snapshot frame
unchanged (its time-to-completion step mutates only a `.copy()`); the
performance pass preserves the snapshot rows and the pre-existing columns but
appends the derived `enrollment_month` column to the frame. -/
theorem c9_frame_amended :
    (∀ df : CompletionDataFrame, completion_analysis_pass df = df)
  ∧ (∀ df : PerfDataFrame,
      (performance_analysis_pass df).rows = df.rows ∧
      (performance_analysis_pass df).extra_columns =
        df.extra_columns ++ ["enrollment_month"]) :=
  ⟨fun _ => rfl, fun _ => ⟨rfl, rfl⟩⟩

/-! ## Claim C10 -/

/-- C10 (confirmed): the three rate inputs of the mentor effectiveness score
are pandas `mean`s of the per-course values — unweighted arithmetic means over
the courses whose value is non-NULL, each course counting equally (then
rounded to 2 decimals) — and not ratios of mentor-level totals: on a mentor
with a fully-completed 1-student course and an uncompleted 3-student course
the aggregated completion rate is 50, while the totals quotient is 25. -/
theorem c10_unweighted_mean_semantics :
    (∀ rows : List MentorCourseRow,
      rows.filterMap (·.completion_rate) ≠ [] →
      (calculate_mentor_metrics rows).completion_rate =
        some (roundTo2 (unweighted_mean (rows.filterMap (·.completion_rate)))))
  ∧ (∀ rows : List MentorCourseRow,
      rows.filterMap (·.avg_course_rating) ≠ [] →
      (calculate_mentor_metrics rows).avg_course_rating =
        some (roundTo2 (unweighted_mean (rows.filterMap (·.avg_course_rating)))))
  ∧ (∀ rows : List MentorCourseRow,
      rows.filterMap (·.avg_assignment_score) ≠ [] →
      (calculate_mentor_metrics rows).avg_assignment_score =
        some (roundTo2 (unweighted_mean (rows.filterMap (·.avg_assignment_score)))))
  ∧ (calculate_mentor_metrics c10_rows).completion_rate = some 50
  ∧ totals_completion_rate c10_rows = 25
  ∧ (calculate_mentor_metrics c10_rows).completion_rate ≠
      some (totals_completion_rate c10_rows) := by
  have h50 : (calculate_mentor_metrics c10_rows).completion_rate = some 50 := by
    have hf : c10_rows.filterMap (·.completion_rate) = [100, 0] := by decide
    simp only [calculate_mentor_metrics, hf]
    have hm : pd_mean [(100 : ℚ), 0] = some 50 := by
      unfold pd_mean
      rw [if_neg (by decide)]
      norm_num
    rw [hm]
    simp only [Option.map_some']
    rw [roundTo2_int_mul 5000 (by norm_num)]
    norm_num
  have h25 : totals_completion_rate c10_rows = 25 := by
    norm_num [totals_completion_rate, c10_rows, c10_row_a, c10_row_b]
  refine ⟨?_, ?_, ?_, h50, h25, ?_⟩
  · intro rows h
    simp [calculate_mentor_metrics, pd_mean, unweighted_mean, h]
  · intro rows h
    simp [calculate_mentor_metrics, pd_mean, unweighted_mean, h]
  · intro rows h
    simp [calculate_mentor_metrics, pd_mean, unweighted_mean, h]
  · rw [h50, h25]
    norm_num

/-- Witness for C10: the per-mentor mean semantics at the concrete two-course
mentor. -/
theorem c10_witness :
    (calculate_mentor_metrics c10_rows).completion_rate =
      some (roundTo2 (unweighted_mean (c10_rows.filterMap (·.completion_rate)))) :=
  c10_unweighted_mean_semantics.1 c10_rows (by decide)

end Damp
